import Mathlib

/-!
Shallow embedding of the tower-ipfilter crate (src/tower-ipfilter/src/) and
proofs about its specification claims.

Modelling conventions:
- Rust strings are modelled as byte lists (`RStr := List Nat`); equality of
  Rust strings is byte-list equality.
- `DashMap` is modelled as an association list with overwrite-on-insert;
  iteration order is list order (the concrete map's iteration order is
  unspecified, so nothing proved here depends on a particular order beyond
  what the source's scan itself fixes).
- A Rust panic is modelled by `Option`/`none` on the function's result.
- IPv4 addresses are `Nat` values below 2^32, IPv6 below 2^128.
-/

/-- Byte-list model of a Rust string; `strBytes` builds concrete values from
ASCII literals (each character's code point is its byte). -/
abbrev RStr : Type := List Nat

/-- Bytes of an ASCII string literal. -/
def strBytes (s : String) : RStr := s.data.map (fun c => c.toNat)

namespace AList

variable {α β : Type} [DecidableEq α]

/-- Lookup in an association list (model of a map get). -/
def lookupA : List (α × β) → α → Option β
  | [], _ => none
  | (k, v) :: rest, key => if k = key then some v else lookupA rest key

/-- Insert with overwrite (model of a map insert). -/
def insertA : List (α × β) → α → β → List (α × β)
  | [], k, v => [(k, v)]
  | (k0, v0) :: rest, k, v =>
      if k0 = k then (k, v) :: rest else (k0, v0) :: insertA rest k v

/-- Remove a key (model of a map remove). -/
def removeA : List (α × β) → α → List (α × β)
  | [], _ => []
  | (k0, v0) :: rest, k => if k0 = k then rest else (k0, v0) :: removeA rest k

/-- Key membership (model of contains_key). -/
def containsKeyA (l : List (α × β)) (k : α) : Bool :=
  (lookupA l k).isSome

end AList

open AList

/-- Mode, from types.rs: BlackList or WhiteList; default is BlackList. -/
inductive Mode
  | blackList
  | whiteList
  deriving DecidableEq

/-- Default mode, from the Default impl in types.rs. -/
def Mode.default : Mode := .blackList

/-- An IPv4 CIDR network, from the ipnetwork crate as used by the source:
an address and a prefix length (0..=32). -/
structure Ipv4Network where
  addr : Nat
  prefixLen : Nat
  deriving DecidableEq

/-- An IPv6 CIDR network: address and prefix length (0..=128). -/
structure Ipv6Network where
  addr : Nat
  prefixLen : Nat
  deriving DecidableEq

/-- The high-ones IPv4 netmask for a prefix length p ≤ 32. -/
def ipv4Mask (p : Nat) : Nat := 2 ^ 32 - 2 ^ (32 - p)

/-- The high-ones IPv6 netmask for a prefix length p ≤ 128. -/
def ipv6Mask (p : Nat) : Nat := 2 ^ 128 - 2 ^ (128 - p)

/-- Ipv4Network::contains: the masked address equals the masked network base. -/
def Ipv4Network.containsIp (n : Ipv4Network) (ip : Nat) : Bool :=
  ip &&& ipv4Mask n.prefixLen = n.addr &&& ipv4Mask n.prefixLen

/-- Ipv6Network::contains. -/
def Ipv6Network.containsIp (n : Ipv6Network) (ip : Nat) : Bool :=
  ip &&& ipv6Mask n.prefixLen = n.addr &&& ipv6Mask n.prefixLen

/-- Ipv4Network::network(): the masked base address of the network. -/
def Ipv4Network.base (n : Ipv4Network) : Nat :=
  n.addr &&& ipv4Mask n.prefixLen

/-- An IP address of either family (std::net::IpAddr). -/
inductive IpAddr
  | v4 (a : Nat)
  | v6 (a : Nat)
  deriving DecidableEq

/-- IpNetwork from the ipnetwork crate: a V4 or V6 network. -/
inductive IpNetwork
  | v4 (n : Ipv4Network)
  | v6 (n : Ipv6Network)
  deriving DecidableEq

/-- IpAddrExt::is_ipv4 on IpAddr. -/
def IpAddr.isIpv4 : IpAddr → Bool
  | .v4 _ => true
  | .v6 _ => false

/-- IpAddrExt::to_network on IpAddr: a host (/32 or /128) network. -/
def IpAddr.toNetwork : IpAddr → IpNetwork
  | .v4 a => .v4 ⟨a, 32⟩
  | .v6 a => .v6 ⟨a, 128⟩

/-- IpNetwork::contains(ip: IpAddr): families must match, else false. -/
def IpNetwork.containsAddr : IpNetwork → IpAddr → Bool
  | .v4 n, .v4 a => n.containsIp a
  | .v6 n, .v6 a => n.containsIp a
  | _, _ => false

/-- A numeric IPv4 address from dotted-quad octets. -/
def ip4 (a b c d : Nat) : Nat :=
  ((a * 256 + b) * 256 + c) * 256 + d

/-- CountryLocation from types.rs: one row of the country-locations table. -/
structure CountryLocation where
  geoname_id : Nat
  locale_code : RStr
  continent_code : RStr
  continent_name : RStr
  country_iso_code : Option RStr
  country_name : Option RStr
  is_in_european_union : Bool
  deriving DecidableEq

/-- IpBlock from types.rs: one row of the network-blocks table. -/
structure IpBlock where
  network : RStr
  geoname_id : Option Nat
  registered_country_geoname_id : Option Nat
  represented_country_geoname_id : Option Nat
  is_anonymous_proxy : Bool
  is_satellite_provider : Bool
  is_anycast : Option Bool
  deriving DecidableEq

/-- GeoData from types.rs: the ordered block sequence and the
geoname_id-keyed country map (modelled as an association list whose order is
the map's iteration order). -/
structure GeoData where
  ip_blocks : List IpBlock
  country_locations : List (Nat × CountryLocation)
  deriving DecidableEq

/-- IpMetaData from ip_filter.rs. -/
structure IpMetaData where
  reason : RStr
  date : RStr
  deriving DecidableEq

/-- GeoIpv4Filter state from geo_filter.rs: network → country map,
address-override map, blocked-country set, and the mode. -/
structure GeoIpv4Filter where
  networks : List (Ipv4Network × CountryLocation)
  addresses : List (Nat × CountryLocation)
  countries : List (RStr × Bool)
  mode : Mode
  deriving DecidableEq

namespace GeoIpv4Filter

/-- GeoIpv4Filter::get_country_for_ip: the override map first (exact match),
else the first stored network containing the address, in iteration order. -/
def get_country_for_ip (s : GeoIpv4Filter) (ip : Nat) : Option CountryLocation :=
  match lookupA s.addresses ip with
  | some location => some location
  | none =>
      (s.networks.find? (fun kv => kv.1.containsIp ip)).map (fun kv => kv.2)

/-- GeoIpv4Filter::add_ip: resolve the address and pin it into the override
map; if the address does not resolve, do nothing. The reason and date
arguments are unused by the source. -/
def add_ip (s : GeoIpv4Filter) (ip : Nat) (_reason _date : RStr) : GeoIpv4Filter :=
  match s.get_country_for_ip ip with
  | some country => { s with addresses := insertA s.addresses ip country }
  | none => s

/-- GeoIpv4Filter::remove_ip. -/
def remove_ip (s : GeoIpv4Filter) (ip : Nat) : GeoIpv4Filter :=
  { s with addresses := removeA s.addresses ip }

/-- GeoIpv4Filter::add_network: resolve the network's base address and insert
the network; if the base does not resolve, do nothing. The reason and date
arguments are unused by the source. -/
def add_network (s : GeoIpv4Filter) (n : Ipv4Network) (_reason _date : RStr) :
    GeoIpv4Filter :=
  match s.get_country_for_ip n.base with
  | some country => { s with networks := insertA s.networks n country }
  | none => s

/-- GeoIpv4Filter::remove_network. -/
def remove_network (s : GeoIpv4Filter) (n : Ipv4Network) : GeoIpv4Filter :=
  { s with networks := removeA s.networks n }

/-- GeoIpv4Filter::set_countries: clear, then insert each name. -/
def set_countries (s : GeoIpv4Filter) (cs : List RStr) : GeoIpv4Filter :=
  { s with countries := cs.foldl (fun m c => insertA m c true) [] }

/-- GeoIpv4Filter::is_country_blocked: membership in the country set, with
polarity given by the mode. -/
def is_country_blocked (s : GeoIpv4Filter) (c : RStr) : Bool :=
  match s.mode with
  | .blackList => containsKeyA s.countries c
  | .whiteList => !containsKeyA s.countries c

/-- GeoIpv4Filter::is_ip_blocked: resolve, then unwrap the country name and
test it; `none` models the panic of the unwrap when the resolved record has no
country name; an unresolved address yields `some false`. -/
def is_ip_blocked (s : GeoIpv4Filter) (ip : Nat) : Option Bool :=
  match s.get_country_for_ip ip with
  | some country =>
      match country.country_name with
      | some name => some (s.is_country_blocked name)
      | none => none
  | none => some false

/-- NetworkFilter::is_blocked for GeoIpv4Filter: on a V4 address it returns
the NEGATION of is_ip_blocked (geo_filter.rs line 257); on any other family
it returns false. `none` propagates the is_ip_blocked panic. -/
def nf_is_blocked (s : GeoIpv4Filter) (ip : IpAddr) : Option Bool :=
  match ip with
  | .v4 a => (s.is_ip_blocked a).map (fun b => !b)
  | .v6 _ => some false

/-- NetworkFilter::block for GeoIpv4Filter: V4 input goes to
add_network/add_ip with fixed metadata; any other family is silently
ignored. -/
def nf_block (s : GeoIpv4Filter) (ip : IpAddr) (network : Bool) : GeoIpv4Filter :=
  if network then
    match ip.toNetwork with
    | .v4 n => s.add_network n (strBytes "Blocked") (strBytes "2021-01-01")
    | .v6 _ => s
  else
    match ip with
    | .v4 a => s.add_ip a (strBytes "Blocked") (strBytes "2021-01-01")
    | .v6 _ => s

/-- NetworkFilter::unblock for GeoIpv4Filter: V4 input goes to
remove_network/remove_ip; any other family is silently ignored. -/
def nf_unblock (s : GeoIpv4Filter) (ip : IpAddr) (network : Bool) : GeoIpv4Filter :=
  if network then
    match ip.toNetwork with
    | .v4 n => s.remove_network n
    | .v6 _ => s
  else
    match ip with
    | .v4 a => s.remove_ip a
    | .v6 _ => s

end GeoIpv4Filter

/-- IpFilter state from ip_filter.rs (the V4/V6 phantom parameter only
selects which NetworkFilter impl applies; the state shape is shared). -/
structure IpFilter where
  addresses : List (IpAddr × IpMetaData)
  networks : List (IpNetwork × IpMetaData)
  mode : Mode
  deriving DecidableEq

namespace IpFilter

/-- IpFilter::add_ip. -/
def add_ip (s : IpFilter) (ip : IpAddr) (reason date : RStr) : IpFilter :=
  { s with addresses := insertA s.addresses ip ⟨reason, date⟩ }

/-- IpFilter::add_network. -/
def add_network (s : IpFilter) (n : IpNetwork) (reason date : RStr) : IpFilter :=
  { s with networks := insertA s.networks n ⟨reason, date⟩ }

/-- IpFilter::is_ip_blocked: address-map membership, else a scan of the
networks map for a containing prefix, with the mode fixing the returned
constant in each branch exactly as in the source. -/
def is_ip_blocked (s : IpFilter) (ip : IpAddr) : Bool :=
  if containsKeyA s.addresses ip then
    match s.mode with
    | .blackList => true
    | .whiteList => false
  else
    if s.networks.any (fun kv => kv.1.containsAddr ip) then
      match s.mode with
      | .blackList => true
      | .whiteList => false
    else
      match s.mode with
      | .blackList => false
      | .whiteList => true

/-- IpFilter::block_ip: insert the host network or the address, with the
fixed metadata literals of the source. -/
def block_ip (s : IpFilter) (ip : IpAddr) (network : Bool) : IpFilter :=
  if network then
    s.add_network ip.toNetwork (strBytes "Blocked") (strBytes "2021-09-01")
  else
    s.add_ip ip (strBytes "Blocked") (strBytes "2021-09-01")

/-- IpFilter::unblock_ip. -/
def unblock_ip (s : IpFilter) (ip : IpAddr) (network : Bool) : IpFilter :=
  if network then
    { s with networks := removeA s.networks ip.toNetwork }
  else
    { s with addresses := removeA s.addresses ip }

/-- NetworkFilter::is_blocked for IpFilter over V4: panics (`none`) on a
non-V4 address. -/
def v4_is_blocked (s : IpFilter) (ip : IpAddr) : Option Bool :=
  if ip.isIpv4 then some (s.is_ip_blocked ip) else none

/-- NetworkFilter::block for IpFilter over V4: panics (`none`) on a non-V4
address. -/
def v4_block (s : IpFilter) (ip : IpAddr) (network : Bool) : Option IpFilter :=
  if ip.isIpv4 then some (s.block_ip ip network) else none

/-- NetworkFilter::unblock for IpFilter over V4: panics (`none`) on a non-V4
address. -/
def v4_unblock (s : IpFilter) (ip : IpAddr) (network : Bool) : Option IpFilter :=
  if ip.isIpv4 then some (s.unblock_ip ip network) else none

/-- NetworkFilter::is_blocked for IpFilter over V6: panics (`none`) on a V4
address. -/
def v6_is_blocked (s : IpFilter) (ip : IpAddr) : Option Bool :=
  if !ip.isIpv4 then some (s.is_ip_blocked ip) else none

/-- NetworkFilter::block for IpFilter over V6: panics (`none`) on a V4
address. -/
def v6_block (s : IpFilter) (ip : IpAddr) (network : Bool) : Option IpFilter :=
  if !ip.isIpv4 then some (s.block_ip ip network) else none

/-- NetworkFilter::unblock for IpFilter over V6: panics (`none`) on a V4
address. -/
def v6_unblock (s : IpFilter) (ip : IpAddr) (network : Bool) : Option IpFilter :=
  if !ip.isIpv4 then some (s.unblock_ip ip network) else none

end IpFilter

example :
    (Ipv4Network.mk (ip4 10 0 0 0) 8).containsIp (ip4 10 0 0 1) = true := by decide

example :
    (Ipv4Network.mk (ip4 10 0 0 0) 8).containsIp (ip4 11 0 0 1) = false := by decide

example :
    (Ipv4Network.mk (ip4 10 0 0 0) 8).containsIp (ip4 10 255 255 255) = true := by
  decide

/-! ## Geo Source Loader (extract.rs, types.rs bool_deserialize) -/

/-- bool_deserialize from types.rs: only the literals "1" and "0" parse. -/
def bool_deserialize (s : RStr) : Except Unit Bool :=
  if s = strBytes "1" then .ok true
  else if s = strBytes "0" then .ok false
  else .error ()

/-- Decimal digits to a number; fails on an empty list or a non-digit byte. -/
def parseDigits : RStr → Option Nat
  | [] => none
  | bs =>
      bs.foldl
        (fun acc b =>
          match acc with
          | none => none
          | some v => if 48 ≤ b ∧ b ≤ 57 then some (v * 10 + (b - 48)) else none)
        (some 0)

/-- Serde parse of an Option<u32> CSV field: the empty field is None, a
decimal u32 is Some, anything else is a row error. -/
def parseOptU32 (s : RStr) : Except Unit (Option Nat) :=
  match s with
  | [] => .ok none
  | bs =>
      match parseDigits bs with
      | some v => if v < 2 ^ 32 then .ok (some v) else .error ()
      | none => .error ()

/-- Serde parse of a u32 CSV field. -/
def parseU32 (s : RStr) : Except Unit Nat :=
  match parseDigits s with
  | some v => if v < 2 ^ 32 then .ok v else .error ()
  | none => .error ()

/-- Serde parse of an Option<String> CSV field: the empty field is None. -/
def parseOptStr (s : RStr) : Except Unit (Option RStr) :=
  match s with
  | [] => .ok none
  | bs => .ok (some bs)

/-- Row deserialization of an IpBlock (csv + serde derive on types.rs): one
row of the fixed six-column schema; the two flag columns go through
bool_deserialize; is_anycast is serde-skipped, so it is always None. -/
def parseIpBlockRow (fields : List RStr) : Except Unit IpBlock :=
  match fields with
  | [network, geoname, registered, represented, anon, sat] =>
      match parseOptU32 geoname with
      | .error _ => .error ()
      | .ok g =>
          match parseOptU32 registered with
          | .error _ => .error ()
          | .ok reg =>
              match parseOptU32 represented with
              | .error _ => .error ()
              | .ok rep =>
                  match bool_deserialize anon with
                  | .error _ => .error ()
                  | .ok a =>
                      match bool_deserialize sat with
                      | .error _ => .error ()
                      | .ok s => .ok ⟨network, g, reg, rep, a, s, none⟩
  | _ => .error ()

/-- Row deserialization of a CountryLocation (csv + serde derive on
types.rs): the fixed seven-column schema, EU flag through
bool_deserialize. -/
def parseCountryLocationRow (fields : List RStr) : Except Unit CountryLocation :=
  match fields with
  | [geoname, locale, ccode, cname, iso, country, eu] =>
      match parseU32 geoname with
      | .error _ => .error ()
      | .ok g =>
          match parseOptStr iso with
          | .error _ => .error ()
          | .ok iso2 =>
              match parseOptStr country with
              | .error _ => .error ()
              | .ok country2 =>
                  match bool_deserialize eu with
                  | .error _ => .error ()
                  | .ok e => .ok ⟨g, locale, ccode, cname, iso2, country2, e⟩
  | _ => .error ()

/-- The fixed archive entry name of the network-blocks table. -/
def blocksEntryName : String :=
  "GeoLite2-Country-CSV_20241015/GeoLite2-Country-Blocks-IPv4.csv"

/-- The fixed archive entry name of the country-locations table. -/
def locationsEntryName : String :=
  "GeoLite2-Country-CSV_20241015/GeoLite2-Country-Locations-en.csv"

/-- A source archive as the loader sees it: `none` when the file cannot be
opened or is not a readable zip, otherwise named entries each holding parsed
CSV rows (lists of field strings). -/
def ArchiveInput : Type := Option (List (String × List (List RStr)))

/-- Loader error from extract.rs (every failure is an early return). -/
inductive LoadError
  | openFailed
  | entryMissing
  | rowParse
  deriving DecidableEq

/-- Parse every row, failing the whole load on the first bad row. -/
def parseRows {α : Type} (p : List RStr → Except Unit α) :
    List (List RStr) → Except LoadError (List α)
  | [] => .ok []
  | r :: rest =>
      match p r with
      | .error _ => .error .rowParse
      | .ok a =>
          match parseRows p rest with
          | .error e => .error e
          | .ok as => .ok (a :: as)

/-- The body of extract_and_parse_csv once the archive is open: read the
blocks entry and parse all its rows in order, then read the locations entry
and insert each parsed row into the geoname_id-keyed map; any failure aborts
the whole load with an error. -/
def extract_entries (entries : List (String × List (List RStr))) :
    Except LoadError GeoData :=
  match lookupA entries blocksEntryName with
  | none => .error .entryMissing
  | some blockRows =>
          match parseRows parseIpBlockRow blockRows with
          | .error e => .error e
          | .ok blocks =>
              match lookupA entries locationsEntryName with
              | none => .error .entryMissing
              | some locRows =>
                  match parseRows parseCountryLocationRow locRows with
                  | .error e => .error e
                  | .ok locs =>
                      .ok ⟨blocks,
                           locs.foldl (fun m c => insertA m c.geoname_id c) []⟩

/-- extract_and_parse_csv from extract.rs: open the archive (failure is an
error with no GeoData), then parse the two named tables. -/
def extract_and_parse_csv (arch : ArchiveInput) : Except LoadError GeoData :=
  match arch with
  | none => .error .openFailed
  | some entries => extract_entries entries

/-! ## Compacted Cache Codec (compress.rs; bincode standard configuration)

The binary layer is bincode 2 with the standard configuration (little-endian,
variable-length integer encoding), modelled byte for byte; the gzip layer
(flate2) is an external general-purpose stream compressor and is carried as an
explicit pair of functions assumed lossless, exactly the contract the source
relies on. -/

/-- Little-endian byte list of a number, k bytes. -/
def leBytes : Nat → Nat → List Nat
  | 0, _ => []
  | k + 1, x => x % 256 :: leBytes k (x / 256)

/-- Read k little-endian bytes back into a number. -/
def readLE : Nat → List Nat → Option (Nat × List Nat)
  | 0, bs => some (0, bs)
  | _ + 1, [] => none
  | k + 1, b :: bs => (readLE k bs).map (fun vr => (b + 256 * vr.1, vr.2))

/-- Bincode varint encoding of an unsigned integer: one byte below 251,
otherwise a width marker (251 = u16, 252 = u32, 253 = u64) and the
little-endian bytes of that width. -/
def encVarint (x : Nat) : List Nat :=
  if x < 251 then [x]
  else if x < 2 ^ 16 then 251 :: leBytes 2 x
  else if x < 2 ^ 32 then 252 :: leBytes 4 x
  else 253 :: leBytes 8 x

/-- Bincode varint decoding. -/
def decVarint : List Nat → Option (Nat × List Nat)
  | [] => none
  | b :: bs =>
      if b < 251 then some (b, bs)
      else if b = 251 then readLE 2 bs
      else if b = 252 then readLE 4 bs
      else if b = 253 then readLE 8 bs
      else none

/-- Bincode bool encoding: a single 0 or 1 byte. -/
def encBool (b : Bool) : List Nat :=
  [if b then 1 else 0]

/-- Bincode bool decoding: only 0 and 1 are accepted. -/
def decBool : List Nat → Option (Bool × List Nat)
  | [] => none
  | b :: bs =>
      if b = 0 then some (false, bs)
      else if b = 1 then some (true, bs)
      else none

/-- Bincode Option encoding: a 0/1 tag then the payload. -/
def encOpt {α : Type} (encA : α → List Nat) : Option α → List Nat
  | none => [0]
  | some a => 1 :: encA a

/-- Bincode Option decoding. -/
def decOpt {α : Type} (decA : List Nat → Option (α × List Nat)) :
    List Nat → Option (Option α × List Nat)
  | [] => none
  | b :: bs =>
      if b = 0 then some (none, bs)
      else if b = 1 then (decA bs).map (fun ar => (some ar.1, ar.2))
      else none

/-- Bincode String encoding: varint byte length then the raw bytes. -/
def encBytes (s : RStr) : List Nat :=
  encVarint (List.length s) ++ s

/-- Read exactly n raw bytes. -/
def readN : Nat → List Nat → Option (List Nat × List Nat)
  | 0, bs => some ([], bs)
  | _ + 1, [] => none
  | n + 1, b :: bs => (readN n bs).map (fun vr => (b :: vr.1, vr.2))

/-- Bincode String decoding (UTF-8 validation is outside the byte model). -/
def decBytes (bs : List Nat) : Option (RStr × List Nat) :=
  (decVarint bs).bind (fun nr => readN nr.1 nr.2)

/-- Bincode sequence encoding: varint length then each element. -/
def encList {α : Type} (encA : α → List Nat) (xs : List α) : List Nat :=
  encVarint xs.length ++ xs.flatMap encA

/-- Decode exactly n elements. -/
def decCount {α : Type} (decA : List Nat → Option (α × List Nat)) :
    Nat → List Nat → Option (List α × List Nat)
  | 0, bs => some ([], bs)
  | n + 1, bs =>
      (decA bs).bind (fun ar =>
        (decCount decA n ar.2).map (fun lr => (ar.1 :: lr.1, lr.2)))

/-- Bincode sequence decoding. -/
def decList {α : Type} (decA : List Nat → Option (α × List Nat))
    (bs : List Nat) : Option (List α × List Nat) :=
  (decVarint bs).bind (fun nr => decCount decA nr.1 nr.2)

/-- Bincode encoding of a CountryLocation: fields in declaration order. -/
def encCountryLocation (c : CountryLocation) : List Nat :=
  encVarint c.geoname_id ++ encBytes c.locale_code ++ encBytes c.continent_code
    ++ encBytes c.continent_name ++ encOpt encBytes c.country_iso_code
    ++ encOpt encBytes c.country_name ++ encBool c.is_in_european_union

/-- Bincode decoding of a CountryLocation. -/
def decCountryLocation (bs : List Nat) : Option (CountryLocation × List Nat) :=
  (decVarint bs).bind (fun g =>
  (decBytes g.2).bind (fun lc =>
  (decBytes lc.2).bind (fun cc =>
  (decBytes cc.2).bind (fun cn =>
  (decOpt decBytes cn.2).bind (fun iso =>
  (decOpt decBytes iso.2).bind (fun country =>
  (decBool country.2).map (fun eu =>
    (⟨g.1, lc.1, cc.1, cn.1, iso.1, country.1, eu.1⟩, eu.2))))))))

/-- Bincode encoding of an IpBlock: all seven fields in declaration order
(the derived bincode Encode ignores the serde skip attribute, so is_anycast
is encoded too). -/
def encIpBlock (b : IpBlock) : List Nat :=
  encBytes b.network ++ encOpt encVarint b.geoname_id
    ++ encOpt encVarint b.registered_country_geoname_id
    ++ encOpt encVarint b.represented_country_geoname_id
    ++ encBool b.is_anonymous_proxy ++ encBool b.is_satellite_provider
    ++ encOpt encBool b.is_anycast

/-- Bincode decoding of an IpBlock. -/
def decIpBlock (bs : List Nat) : Option (IpBlock × List Nat) :=
  (decBytes bs).bind (fun nw =>
  (decOpt decVarint nw.2).bind (fun g =>
  (decOpt decVarint g.2).bind (fun reg =>
  (decOpt decVarint reg.2).bind (fun rep =>
  (decBool rep.2).bind (fun anon =>
  (decBool anon.2).bind (fun sat =>
  (decOpt decBool sat.2).map (fun anycast =>
    (⟨nw.1, g.1, reg.1, rep.1, anon.1, sat.1, anycast.1⟩, anycast.2))))))))

/-- Bincode encoding of one geoname_id → CountryLocation map pair. -/
def encLocPair (p : Nat × CountryLocation) : List Nat :=
  encVarint p.1 ++ encCountryLocation p.2

/-- Bincode decoding of one map pair. -/
def decLocPair (bs : List Nat) : Option ((Nat × CountryLocation) × List Nat) :=
  (decVarint bs).bind (fun k =>
  (decCountryLocation k.2).map (fun c => ((k.1, c.1), c.2)))

/-- Bincode encoding of GeoData: the block sequence then the map pairs in
iteration order. -/
def encGeoData (d : GeoData) : List Nat :=
  encList encIpBlock d.ip_blocks ++ encList encLocPair d.country_locations

/-- Bincode decoding of GeoData (trailing bytes are ignored, as with
decode_from_reader). -/
def decGeoData (bs : List Nat) : Option GeoData :=
  (decList decIpBlock bs).bind (fun blocks =>
  (decList decLocPair blocks.2).map (fun locs => ⟨blocks.1, locs.1⟩))

/-- A file store: paths to byte contents (the local filesystem as the codec
sees it). -/
def FileStore : Type := List (String × List Nat)

/-- Codec error from compress.rs load (missing file or undecodable bytes). -/
inductive CodecError
  | fileMissing
  | corrupt
  deriving DecidableEq

/-- save_compressed_data from compress.rs: create/truncate the file at the
path and write the compressed bincode encoding through it. The compressor is
a parameter (flate2 gzip in the source). -/
def save_compressed_data (compress : List Nat → List Nat) (d : GeoData)
    (p : String) (fs : FileStore) : FileStore :=
  insertA fs p (compress (encGeoData d))

/-- load_compressed_data from compress.rs: open the file, decompress, and
bincode-decode; any failure is an error. -/
def load_compressed_data (decompress : List Nat → List Nat) (p : String)
    (fs : FileStore) : Except CodecError GeoData :=
  match lookupA fs p with
  | none => .error .fileMissing
  | some bytes =>
      match decGeoData (decompress bytes) with
      | some d => .ok d
      | none => .error .corrupt

/-! ## Country Index construction and GeoIpv4Filter::new (geo_filter.rs) -/

/-- Parse a decimal octet list; mirrors Ipv4Addr FromStr on dotted quads. -/
def parseOctets (parts : List RStr) : Option Nat :=
  match parts with
  | [a, b, c, d] => do
      let av ← parseDigits a
      let bv ← parseDigits b
      let cv ← parseDigits c
      let dv ← parseDigits d
      if av ≤ 255 ∧ bv ≤ 255 ∧ cv ≤ 255 ∧ dv ≤ 255 then
        some (ip4 av bv cv dv)
      else none
  | _ => none

/-- Split a byte list on a separator byte. -/
def splitOnByte (sep : Nat) (bs : RStr) : List RStr :=
  bs.foldr
    (fun b acc =>
      match acc with
      | [] => if b = sep then [[], []] else [[b]]
      | cur :: rest => if b = sep then [] :: cur :: rest else (b :: cur) :: rest)
    [[]]

/-- Ipv4Network FromStr as used at index build time: "a.b.c.d/p" with
p ≤ 32, or a bare address meaning /32. -/
def parseIpv4Network (s : RStr) : Option Ipv4Network :=
  match splitOnByte 47 s with
  | [addrPart] => (parseOctets (splitOnByte 46 addrPart)).map (fun a => ⟨a, 32⟩)
  | [addrPart, lenPart] => do
      let a ← parseOctets (splitOnByte 46 addrPart)
      let p ← parseDigits lenPart
      if p ≤ 32 then some ⟨a, p⟩ else none
  | _ => none

/-- The synthetic loopback country record inserted by GeoIpv4Filter::new. -/
def loopbackLocation : CountryLocation :=
  ⟨0, strBytes "NB", strBytes "NA", strBytes "Europe",
   some (strBytes "NO"), some (strBytes "Norway"), true⟩

/-- The loopback /32 network key inserted by GeoIpv4Filter::new
(Ipv4Network::from(127.0.0.1)). -/
def loopbackNetwork : Ipv4Network := ⟨ip4 127 0 0 1, 32⟩

/-- The index-construction loop of GeoIpv4Filter::new: start from the
loopback entry, then for each block with a geoname_id, a parseable network
literal, and a country record for that id, insert network → country
(last-write-wins); other blocks are skipped with a diagnostic only. -/
def buildNetworks (d : GeoData) : List (Ipv4Network × CountryLocation) :=
  d.ip_blocks.foldl
    (fun m block =>
      match block.geoname_id with
      | none => m
      | some g =>
          match parseIpv4Network block.network with
          | none => m
          | some n =>
              match lookupA d.country_locations g with
              | none => m
              | some country => insertA m n country)
    (insertA [] loopbackNetwork loopbackLocation)

/-- Constructor error from GeoIpv4Filter::new: a loader error when parsing
the source archive, or a codec error when reading the cache. -/
inductive NewError
  | load (e : LoadError)
  | codec (e : CodecError)
  deriving DecidableEq

/-- The hardcoded cache file path of GeoIpv4Filter::new. -/
def cacheFilePath : String := "geo_ip_data.bin.gz"

/-- GeoIpv4Filter::new from geo_filter.rs: if the cache file does not exist,
parse the source archive, write a fresh cache, and build from the parsed
data; if the cache file exists, load it (propagating any codec error, with
no fallback to the source archive) and build from the loaded data. -/
def GeoIpv4Filter.new (compress decompress : List Nat → List Nat)
    (mode : Mode) (arch : ArchiveInput) (fs : FileStore) :
    Except NewError (GeoIpv4Filter × FileStore) :=
  match lookupA fs cacheFilePath with
  | none =>
      match extract_and_parse_csv arch with
      | .error e => .error (.load e)
      | .ok d =>
          let fs2 := save_compressed_data compress d cacheFilePath fs
          .ok (⟨buildNetworks d, [], [], mode⟩, fs2)
  | some _ =>
      match load_compressed_data decompress cacheFilePath fs with
      | .error e => .error (.codec e)
      | .ok d => .ok (⟨buildNetworks d, [], [], mode⟩, fs)

example : parseIpv4Network (strBytes "10.0.0.0/8") = some ⟨ip4 10 0 0 0, 8⟩ := by
  decide

example : parseIpv4Network (strBytes "1.2.3.4") = some ⟨ip4 1 2 3 4, 32⟩ := by
  decide

example : parseIpv4Network (strBytes "10.0.0.0/33") = none := by decide

example : decGeoData (encGeoData ⟨[], []⟩) = some ⟨[], []⟩ := by decide

/-! ## Helper lemmas about the map model -/

lemma lookupA_mem {α β : Type} [DecidableEq α] {l : List (α × β)} {k : α}
    {v : β} (h : lookupA l k = some v) : (k, v) ∈ l := by
  induction l with
  | nil => simp [lookupA] at h
  | cons kv rest ih =>
      obtain ⟨k0, v0⟩ := kv
      by_cases hk : k0 = k
      · subst hk
        simp [lookupA] at h
        subst h
        exact List.mem_cons_self _ _
      · simp [lookupA, hk] at h
        exact List.mem_cons_of_mem _ (ih h)

lemma lookupA_insertA_self {α β : Type} [DecidableEq α] (l : List (α × β))
    (k : α) (v : β) : lookupA (insertA l k v) k = some v := by
  induction l with
  | nil => simp [insertA, lookupA]
  | cons kv rest ih =>
      obtain ⟨k0, v0⟩ := kv
      by_cases hk : k0 = k
      · simp [insertA, hk, lookupA]
      · simp [insertA, hk, lookupA, ih]

lemma find_first_iff {α : Type} (p : α → Bool) (l : List α) (x : α) :
    l.find? p = some x ↔
      ∃ l1 l2, l = l1 ++ x :: l2 ∧ p x = true ∧ ∀ y ∈ l1, p y = false := by
  induction l with
  | nil => simp
  | cons a t ih =>
      by_cases h : p a
      · rw [List.find?, h]
        constructor
        · rintro hx
          injection hx with hx
          subst hx
          exact ⟨[], t, rfl, h, by simp⟩
        · rintro ⟨l1, l2, heq, hx, hall⟩
          cases l1 with
          | nil =>
              simp at heq
              rw [heq.1]
          | cons b t1 =>
              injection heq with hb ht
              subst hb
              have := hall a (List.mem_cons_self _ _)
              rw [h] at this
              cases this
      · rw [Bool.not_eq_true] at h
        rw [List.find?, h]
        rw [ih]
        constructor
        · rintro ⟨l1, l2, heq, hx, hall⟩
          exact ⟨a :: l1, l2, by rw [heq]; rfl, hx,
            by
              intro y hy
              rcases List.mem_cons.mp hy with hy | hy
              · rw [hy]; exact h
              · exact hall y hy⟩
        · rintro ⟨l1, l2, heq, hx, hall⟩
          cases l1 with
          | nil =>
              simp at heq
              rw [heq.1] at h
              rw [hx] at h
              cases h
          | cons b t1 =>
              injection heq with hb ht
              subst hb
              exact ⟨t1, l2, ht, hx, fun y hy =>
                hall y (List.mem_cons_of_mem _ hy)⟩

/-- An address with no override entry and no containing stored network does
not resolve. -/
lemma get_country_for_ip_none (s : GeoIpv4Filter) (ip : Nat)
    (hov : lookupA s.addresses ip = none)
    (hnet : ∀ kv ∈ s.networks, kv.1.containsIp ip = false) :
    s.get_country_for_ip ip = none := by
  unfold GeoIpv4Filter.get_country_for_ip
  rw [hov]
  rw [List.find?_eq_none.mpr]
  · rfl
  · intro kv hkv
    rw [hnet kv hkv]
    simp

/-- C3: Raw filter Mode polarity: in BlackList mode is_ip_blocked is exactly
membership (address map hit or some containing network); in WhiteList mode it
is the exact logical negation of the BlackList result on the same maps. -/
theorem c3_raw_mode_polarity (addrs : List (IpAddr × IpMetaData))
    (nets : List (IpNetwork × IpMetaData)) (a : IpAddr) :
    IpFilter.is_ip_blocked ⟨addrs, nets, .blackList⟩ a
      = (containsKeyA addrs a || nets.any (fun kv => kv.1.containsAddr a))
    ∧ IpFilter.is_ip_blocked ⟨addrs, nets, .whiteList⟩ a
      = !(containsKeyA addrs a || nets.any (fun kv => kv.1.containsAddr a)) := by
  unfold IpFilter.is_ip_blocked
  by_cases h1 : containsKeyA addrs a <;>
    by_cases h2 : nets.any (fun kv => kv.1.containsAddr a) <;>
      simp [h1, h2]

/-- C8: Address Override precedence: an override entry decides resolution
regardless of the stored networks; with no override, resolution returns
exactly the first stored network (in scan order) containing the address. -/
theorem c8_override_precedence (s : GeoIpv4Filter) (ip : Nat)
    (o c : CountryLocation) :
    (lookupA s.addresses ip = some o → s.get_country_for_ip ip = some o)
    ∧ (lookupA s.addresses ip = none →
        (s.get_country_for_ip ip = some c ↔
          ∃ pre kv post, s.networks = pre ++ kv :: post
            ∧ kv.1.containsIp ip = true ∧ kv.2 = c
            ∧ ∀ e ∈ pre, e.1.containsIp ip = false)) := by
  constructor
  · intro h
    unfold GeoIpv4Filter.get_country_for_ip
    rw [h]
  · intro h
    unfold GeoIpv4Filter.get_country_for_ip
    rw [h]
    simp only [Option.map_eq_some']
    constructor
    · rintro ⟨kv, hfind, hc⟩
      rw [find_first_iff] at hfind
      obtain ⟨l1, l2, heq, hp, hall⟩ := hfind
      exact ⟨l1, kv, l2, heq, hp, hc, hall⟩
    · rintro ⟨pre, kv, post, heq, hp, hc, hall⟩
      refine ⟨kv, ?_, hc⟩
      rw [find_first_iff]
      exact ⟨pre, post, heq, hp, hall⟩

/-- The United States record used in the repository's own tests. -/
def usLocation : CountryLocation :=
  ⟨2, strBytes "EN", strBytes "NA", strBytes "North America",
   some (strBytes "US"), some (strBytes "United States"), false⟩

/-- The United Kingdom record used in the repository's own tests. -/
def ukLocation : CountryLocation :=
  ⟨1, strBytes "EN", strBytes "EU", strBytes "Europe",
   some (strBytes "GB"), some (strBytes "United Kingdom"), false⟩

/-- Witness for C8 at concrete inputs: an override pinning 10.0.0.1 to the
United States wins over the containing 10.0.0.0/8 → United Kingdom network,
and without the override the network entry decides. -/
theorem c8_override_precedence_witness :
    GeoIpv4Filter.get_country_for_ip
        ⟨[(⟨ip4 10 0 0 0, 8⟩, ukLocation)], [(ip4 10 0 0 1, usLocation)],
         [], .blackList⟩ (ip4 10 0 0 1) = some usLocation
    ∧ GeoIpv4Filter.get_country_for_ip
        ⟨[(⟨ip4 10 0 0 0, 8⟩, ukLocation)], [], [], .blackList⟩
        (ip4 10 0 0 1) = some ukLocation := by
  constructor
  · exact (c8_override_precedence _ _ usLocation usLocation).1 (by decide)
  · exact ((c8_override_precedence _ _ usLocation ukLocation).2 (by decide)).mpr
      ⟨[], (⟨ip4 10 0 0 0, 8⟩, ukLocation), [], rfl, by decide, rfl, by simp⟩

/-- C1: for an address with no override and no containing network, the
internal is_ip_blocked fails open (`some false`) under every mode and
country set, but the public NetworkFilter is_blocked negates it
(geo_filter.rs line 257) and returns `some true`, i.e. it blocks. -/
theorem c1_geo_unresolved_divergence (s : GeoIpv4Filter) (ip : Nat)
    (hov : lookupA s.addresses ip = none)
    (hnet : ∀ kv ∈ s.networks, kv.1.containsIp ip = false) :
    s.is_ip_blocked ip = some false
    ∧ s.nf_is_blocked (.v4 ip) = some true := by
  have h := get_country_for_ip_none s ip hov hnet
  have hbl : s.is_ip_blocked ip = some false := by
    unfold GeoIpv4Filter.is_ip_blocked
    rw [h]
  refine ⟨hbl, ?_⟩
  show (s.is_ip_blocked ip).map (fun b => !b) = some true
  rw [hbl]
  rfl

/-- Witness for C1 at 8.8.8.8 on an empty geo filter. -/
theorem c1_geo_unresolved_divergence_witness :
    GeoIpv4Filter.is_ip_blocked ⟨[], [], [], .blackList⟩ (ip4 8 8 8 8)
        = some false
    ∧ GeoIpv4Filter.nf_is_blocked ⟨[], [], [], .blackList⟩
        (.v4 (ip4 8 8 8 8)) = some true :=
  c1_geo_unresolved_divergence ⟨[], [], [], .blackList⟩ (ip4 8 8 8 8)
    (by decide) (by simp)

/-- C10: blocking an unresolvable address or network on the geo filter is a
silent no-op (the maps are left unchanged), and the reason/date metadata is
discarded by add_ip and add_network in all cases. -/
theorem c10_geo_block_unresolvable_noop (s : GeoIpv4Filter) (ip : Nat)
    (n : Ipv4Network) (r1 d1 r2 d2 : RStr) :
    (lookupA s.addresses ip = none →
      (∀ kv ∈ s.networks, kv.1.containsIp ip = false) →
      s.add_ip ip r1 d1 = s)
    ∧ (lookupA s.addresses n.base = none →
      (∀ kv ∈ s.networks, kv.1.containsIp n.base = false) →
      s.add_network n r1 d1 = s)
    ∧ s.add_ip ip r1 d1 = s.add_ip ip r2 d2
    ∧ s.add_network n r1 d1 = s.add_network n r2 d2 := by
  refine ⟨?_, ?_, rfl, rfl⟩
  · intro hov hnet
    unfold GeoIpv4Filter.add_ip
    rw [get_country_for_ip_none s ip hov hnet]
  · intro hov hnet
    unfold GeoIpv4Filter.add_network
    rw [get_country_for_ip_none s n.base hov hnet]

/-- Witness for C10 at 8.8.8.8 and 9.0.0.0/8 on an empty geo filter. -/
theorem c10_geo_block_unresolvable_noop_witness :
    GeoIpv4Filter.add_ip ⟨[], [], [], .blackList⟩ (ip4 8 8 8 8)
        (strBytes "r") (strBytes "d") = ⟨[], [], [], .blackList⟩
    ∧ GeoIpv4Filter.add_network ⟨[], [], [], .blackList⟩ ⟨ip4 9 0 0 0, 8⟩
        (strBytes "r") (strBytes "d") = ⟨[], [], [], .blackList⟩ :=
  ⟨(c10_geo_block_unresolvable_noop ⟨[], [], [], .blackList⟩ (ip4 8 8 8 8)
      ⟨ip4 9 0 0 0, 8⟩ (strBytes "r") (strBytes "d") (strBytes "x")
      (strBytes "y")).1 (by decide) (by simp),
   (c10_geo_block_unresolvable_noop ⟨[], [], [], .blackList⟩ (ip4 8 8 8 8)
      ⟨ip4 9 0 0 0, 8⟩ (strBytes "r") (strBytes "d") (strBytes "x")
      (strBytes "y")).2.1 (by decide) (by simp)⟩

/-- C6 counterexample: the geo-derived IPv4 filter, fed an IPv6 address
through its NetworkFilter is_blocked, returns the boolean decision
`some false` instead of signalling a fatal TypeMismatch (which the panic
model renders as `none`). -/
theorem c6_geo_mismatch_counterexample :
    GeoIpv4Filter.nf_is_blocked ⟨[], [], [], .blackList⟩ (.v6 1) = some false
    ∧ GeoIpv4Filter.nf_is_blocked ⟨[], [], [], .blackList⟩ (.v6 1) ≠ none := by
  constructor
  · rfl
  · intro h
    cases h

/-- C6 amended: the raw IpFilter variants panic (TypeMismatch) on every
family-mismatched block, unblock, and is_blocked call, while the geo-derived
IPv4 filter instead silently ignores mismatched addresses: is_blocked
returns false and block/unblock leave the state unchanged. -/
theorem c6_family_mismatch_behaviour (s : IpFilter) (g : GeoIpv4Filter)
    (a4 a6 : Nat) (net : Bool) :
    IpFilter.v4_is_blocked s (.v6 a6) = none
    ∧ IpFilter.v4_block s (.v6 a6) net = none
    ∧ IpFilter.v4_unblock s (.v6 a6) net = none
    ∧ IpFilter.v6_is_blocked s (.v4 a4) = none
    ∧ IpFilter.v6_block s (.v4 a4) net = none
    ∧ IpFilter.v6_unblock s (.v4 a4) net = none
    ∧ g.nf_is_blocked (.v6 a6) = some false
    ∧ g.nf_block (.v6 a6) net = g
    ∧ g.nf_unblock (.v6 a6) net = g := by
  refine ⟨rfl, rfl, rfl, rfl, rfl, rfl, rfl, ?_, ?_⟩
  · unfold GeoIpv4Filter.nf_block
    cases net <;> rfl
  · unfold GeoIpv4Filter.nf_unblock
    cases net <;> rfl

/-- The concrete end-to-end scenario of C2 and of the repository's own
tests: 10.0.0.0/8 → United States, blocked countries = [United States],
BlackList mode. -/
def c2Filter : GeoIpv4Filter :=
  GeoIpv4Filter.set_countries
    ⟨[(⟨ip4 10 0 0 0, 8⟩, usLocation)], [], [], .blackList⟩
    [strBytes "United States"]

/-- C2: in the end-to-end scenario, the internal is_ip_blocked matches the
claim (10.0.0.1 and the inclusive boundary 10.255.255.255 blocked, an
unmapped address not blocked), but the public NetworkFilter is_blocked
returns the negation of each decision (geo_filter.rs line 257). -/
theorem c2_geo_end_to_end_divergence :
    GeoIpv4Filter.is_ip_blocked c2Filter (ip4 10 0 0 1) = some true
    ∧ GeoIpv4Filter.is_ip_blocked c2Filter (ip4 10 255 255 255) = some true
    ∧ GeoIpv4Filter.is_ip_blocked c2Filter (ip4 192 168 1 1) = some false
    ∧ GeoIpv4Filter.nf_is_blocked c2Filter (.v4 (ip4 10 0 0 1)) = some false
    ∧ GeoIpv4Filter.nf_is_blocked c2Filter (.v4 (ip4 10 255 255 255))
        = some false
    ∧ GeoIpv4Filter.nf_is_blocked c2Filter (.v4 (ip4 192 168 1 1))
        = some true := by
  refine ⟨?_, ?_, ?_, ?_, ?_, ?_⟩ <;> decide

/-- A country record with no country name (country_name is optional in the
source schema). -/
def noNameLocation : CountryLocation :=
  ⟨5, strBytes "EN", strBytes "EU", strBytes "Europe", none, none, false⟩

/-- A GeoData whose single block resolves to the record with no country
name; building the index from it is the reachable bad state of C9. -/
def noNameGeoData : GeoData :=
  ⟨[⟨strBytes "1.0.0.0/8", some 5, none, none, false, false, none⟩],
   [(5, noNameLocation)]⟩

/-- C9: is_ip_blocked is total when every stored record carries a country
name, and panics (unwrap on None, modelled as `none`) on a state reachable
through index construction in which a resolving record has no country
name. -/
theorem c9_unwrap_partiality (s : GeoIpv4Filter) (a : Nat)
    (hov : ∀ kv ∈ s.addresses, (kv.2 : CountryLocation).country_name.isSome = true)
    (hnet : ∀ kv ∈ s.networks, (kv.2 : CountryLocation).country_name.isSome = true) :
    (s.is_ip_blocked a).isSome = true
    ∧ GeoIpv4Filter.is_ip_blocked
        ⟨buildNetworks noNameGeoData, [], [], .blackList⟩ (ip4 1 2 3 4)
        = none := by
  constructor
  · cases hc : s.get_country_for_ip a with
    | none =>
        unfold GeoIpv4Filter.is_ip_blocked
        rw [hc]
        rfl
    | some c =>
        have hname : c.country_name.isSome = true := by
          unfold GeoIpv4Filter.get_country_for_ip at hc
          cases hl : lookupA s.addresses a with
          | some l =>
              rw [hl] at hc
              injection hc with hc
              rw [← hc]
              exact hov (a, l) (lookupA_mem hl)
          | none =>
              rw [hl] at hc
              obtain ⟨kv, hfind, hkv⟩ := Option.map_eq_some'.mp hc
              rw [← hkv]
              exact hnet kv (List.mem_of_find?_eq_some hfind)
        obtain ⟨name, hn⟩ := Option.isSome_iff_exists.mp hname
        simp only [GeoIpv4Filter.is_ip_blocked, hc, hn]
        rfl
  · decide

/-- Witness for C9: the totality direction on an empty filter. -/
theorem c9_unwrap_partiality_witness :
    (GeoIpv4Filter.is_ip_blocked ⟨[], [], [], .blackList⟩ 0).isSome = true :=
  (c9_unwrap_partiality ⟨[], [], [], .blackList⟩ 0 (by simp) (by simp)).1

/-- A successful parseRows run means every row parsed. -/
lemma parseRows_ok_mem {α : Type} (p : List RStr → Except Unit α) :
    ∀ {rows : List (List RStr)} {as : List α}, parseRows p rows = .ok as →
      ∀ r ∈ rows, ∃ a, p r = .ok a := by
  intro rows
  induction rows with
  | nil =>
      intro as h r hr
      cases hr
  | cons r0 rest ih =>
      intro as h r hr
      unfold parseRows at h
      cases hp : p r0 with
      | error e =>
          rw [hp] at h
          cases h
      | ok a =>
          rw [hp] at h
          cases hrest : parseRows p rest with
          | error e =>
              rw [hrest] at h
              cases h
          | ok as2 =>
              rcases List.mem_cons.mp hr with rfl | hr2
              · exact ⟨a, hp⟩
              · exact ih hrest r hr2

/-- A literal other than 0 and 1 fails bool_deserialize. -/
lemma bool_deserialize_bad (s : RStr) (h0 : s ≠ strBytes "0")
    (h1 : s ≠ strBytes "1") : bool_deserialize s = .error () := by
  unfold bool_deserialize
  rw [if_neg h1, if_neg h0]

/-- C5: loader failure is total and atomic: a missing archive or missing
named table is an error; a successful load means both tables were present
and every row of both tables parsed; bool flags only ever parse from the
literals 1 and 0; and a six-column block row whose anonymous-proxy or
satellite-provider literal is neither 0 nor 1 fails to parse. Since the
loader returns Except, an error case returns no (partial) GeoData at all. -/
theorem c5_loader_failure_total :
    extract_and_parse_csv none = .error .openFailed
    ∧ (∀ entries, lookupA entries blocksEntryName = none →
        extract_and_parse_csv (some entries) = .error .entryMissing)
    ∧ (∀ entries d, extract_and_parse_csv (some entries) = .ok d →
        ∃ br lr, lookupA entries blocksEntryName = some br
          ∧ lookupA entries locationsEntryName = some lr
          ∧ (∀ r ∈ br, ∃ blk, parseIpBlockRow r = .ok blk)
          ∧ (∀ r ∈ lr, ∃ loc, parseCountryLocationRow r = .ok loc))
    ∧ (∀ s b, bool_deserialize s = .ok b →
        s = strBytes "1" ∨ s = strBytes "0")
    ∧ (∀ nw gf regf repf anon sat : RStr,
        (anon ≠ strBytes "0" ∧ anon ≠ strBytes "1")
          ∨ (sat ≠ strBytes "0" ∧ sat ≠ strBytes "1") →
        parseIpBlockRow [nw, gf, regf, repf, anon, sat] = .error ()) := by
  refine ⟨rfl, ?_, ?_, ?_, ?_⟩
  · intro entries h
    show extract_entries entries = .error .entryMissing
    unfold extract_entries
    rw [h]
  · intro entries d h
    replace h : extract_entries entries = .ok d := h
    unfold extract_entries at h
    cases hb : lookupA entries blocksEntryName with
    | none =>
        simp only [hb] at h
        cases h
    | some br =>
        simp only [hb] at h
        cases hpb : parseRows parseIpBlockRow br with
        | error e =>
            simp only [hpb] at h
            cases h
        | ok blocks =>
            simp only [hpb] at h
            cases hl : lookupA entries locationsEntryName with
            | none =>
                simp only [hl] at h
                cases h
            | some lr =>
                simp only [hl] at h
                cases hpl : parseRows parseCountryLocationRow lr with
                | error e =>
                    simp only [hpl] at h
                    cases h
                | ok locs =>
                    exact ⟨br, lr, rfl, rfl, parseRows_ok_mem _ hpb,
                      parseRows_ok_mem _ hpl⟩
  · intro s b h
    unfold bool_deserialize at h
    by_cases h1 : s = strBytes "1"
    · exact .inl h1
    · by_cases h0 : s = strBytes "0"
      · exact .inr h0
      · rw [if_neg h1, if_neg h0] at h
        cases h
  · intro nw gf regf repf anon sat hbad
    rcases hbad with ⟨h0, h1⟩ | ⟨h0, h1⟩
    · simp only [parseIpBlockRow]
      cases parseOptU32 gf <;> cases parseOptU32 regf <;>
        cases parseOptU32 repf <;>
          simp [bool_deserialize_bad anon h0 h1]
    · simp only [parseIpBlockRow]
      cases parseOptU32 gf <;> cases parseOptU32 regf <;>
        cases parseOptU32 repf <;> cases hba : bool_deserialize anon <;>
          simp [bool_deserialize_bad sat h0 h1, hba]

/-- Witness for C5 at concrete inputs: an archive with no blocks entry
errors; on the archive holding both tables empty the success characterization
applies; a parsed bool came from a 0/1 literal; a block row with flag
literal 2 fails. -/
theorem c5_loader_failure_total_witness :
    extract_and_parse_csv (some []) = .error .entryMissing
    ∧ (∃ br lr,
        lookupA [(blocksEntryName, ([] : List (List RStr))),
                 (locationsEntryName, [])] blocksEntryName = some br
          ∧ lookupA [(blocksEntryName, ([] : List (List RStr))),
                     (locationsEntryName, [])] locationsEntryName = some lr
          ∧ (∀ r ∈ br, ∃ blk, parseIpBlockRow r = .ok blk)
          ∧ (∀ r ∈ lr, ∃ loc, parseCountryLocationRow r = .ok loc))
    ∧ (strBytes "1" = strBytes "1" ∨ strBytes "1" = strBytes "0")
    ∧ parseIpBlockRow [strBytes "1.0.0.0/8", [], [], [], strBytes "2",
        strBytes "0"] = .error () :=
  ⟨c5_loader_failure_total.2.1 [] rfl,
   c5_loader_failure_total.2.2.1
     [(blocksEntryName, []), (locationsEntryName, [])] ⟨[], []⟩ rfl,
   c5_loader_failure_total.2.2.2.1 (strBytes "1") true rfl,
   c5_loader_failure_total.2.2.2.2 (strBytes "1.0.0.0/8") [] [] []
     (strBytes "2") (strBytes "0") (.inl ⟨by decide, by decide⟩)⟩

/-- C7: cache lifecycle of GeoIpv4Filter::new: with no cache file, the
source archive is parsed and a fresh cache is written before returning (a
loader error propagates); with a cache file present whose bytes do not
decode, construction fails with the codec error for every source archive —
no silent fallback to re-parsing. -/
theorem c7_cache_lifecycle (compress decompress : List Nat → List Nat)
    (mode : Mode) (arch : ArchiveInput) (fs : FileStore) (d : GeoData)
    (b : List Nat) (e : LoadError) :
    (lookupA fs cacheFilePath = none → extract_and_parse_csv arch = .ok d →
      GeoIpv4Filter.new compress decompress mode arch fs
        = .ok (⟨buildNetworks d, [], [], mode⟩,
               insertA fs cacheFilePath (compress (encGeoData d))))
    ∧ (lookupA fs cacheFilePath = none →
        extract_and_parse_csv arch = .error e →
        GeoIpv4Filter.new compress decompress mode arch fs
          = .error (.load e))
    ∧ (lookupA fs cacheFilePath = some b →
        decGeoData (decompress b) = none →
        GeoIpv4Filter.new compress decompress mode arch fs
          = .error (.codec .corrupt)) := by
  refine ⟨?_, ?_, ?_⟩
  · intro hfs hex
    unfold GeoIpv4Filter.new
    simp only [hfs, hex]
    rfl
  · intro hfs hex
    unfold GeoIpv4Filter.new
    simp only [hfs, hex]
  · intro hfs hdec
    unfold GeoIpv4Filter.new load_compressed_data
    simp only [hfs, hdec]

/-- Witness for C7 at concrete inputs: a missing cache with a well-formed
empty archive builds and writes the cache; a missing cache with an unopenable
archive propagates the loader error; a present but undecodable cache is a
codec error even though the same good archive is supplied. -/
theorem c7_cache_lifecycle_witness :
    GeoIpv4Filter.new id id .blackList
        (some [(blocksEntryName, []), (locationsEntryName, [])]) []
      = .ok (⟨buildNetworks ⟨[], []⟩, [], [], .blackList⟩,
             insertA [] cacheFilePath (id (encGeoData ⟨[], []⟩)))
    ∧ GeoIpv4Filter.new id id .blackList none []
      = .error (.load .openFailed)
    ∧ GeoIpv4Filter.new id id .blackList
        (some [(blocksEntryName, []), (locationsEntryName, [])])
        [(cacheFilePath, [])]
      = .error (.codec .corrupt) :=
  ⟨(c7_cache_lifecycle id id .blackList
      (some [(blocksEntryName, []), (locationsEntryName, [])]) [] ⟨[], []⟩
      [] .openFailed).1 rfl rfl,
   (c7_cache_lifecycle id id .blackList none [] ⟨[], []⟩ []
      .openFailed).2.1 rfl rfl,
   (c7_cache_lifecycle id id .blackList
      (some [(blocksEntryName, []), (locationsEntryName, [])])
      [(cacheFilePath, [])] ⟨[], []⟩ [] .openFailed).2.2 rfl rfl⟩

/-! ## Round-trip of the bincode layer -/

lemma readLE_leBytes (k : Nat) : ∀ (x : Nat) (r : List Nat), x < 256 ^ k →
    readLE k (leBytes k x ++ r) = some (x, r) := by
  induction k with
  | zero =>
      intro x r h
      have hx : x = 0 := Nat.lt_one_iff.mp h
      subst hx
      rfl
  | succ k ih =>
      intro x r h
      show (readLE k (leBytes k (x / 256) ++ r)).map
        (fun vr => (x % 256 + 256 * vr.1, vr.2)) = some (x, r)
      have hdiv : x / 256 < 256 ^ k := by
        refine Nat.div_lt_of_lt_mul ?_
        have hp : (256 : Nat) ^ (k + 1) = 256 * 256 ^ k := by ring
        rw [← hp]
        exact h
      rw [ih (x / 256) r hdiv]
      show some (x % 256 + 256 * (x / 256), r) = some (x, r)
      rw [Nat.mod_add_div]

lemma decVarint_encVarint (x : Nat) (r : List Nat) (h : x < 2 ^ 64) :
    decVarint (encVarint x ++ r) = some (x, r) := by
  unfold encVarint
  by_cases h1 : x < 251
  · rw [if_pos h1]
    show decVarint (x :: r) = some (x, r)
    simp only [decVarint]
    rw [if_pos h1]
  · rw [if_neg h1]
    by_cases h2 : x < 2 ^ 16
    · rw [if_pos h2]
      show decVarint (251 :: (leBytes 2 x ++ r)) = some (x, r)
      simp only [decVarint]
      norm_num
      exact readLE_leBytes 2 x r (lt_of_lt_of_eq h2 (by norm_num))
    · rw [if_neg h2]
      by_cases h3 : x < 2 ^ 32
      · rw [if_pos h3]
        show decVarint (252 :: (leBytes 4 x ++ r)) = some (x, r)
        simp only [decVarint]
        norm_num
        exact readLE_leBytes 4 x r (lt_of_lt_of_eq h3 (by norm_num))
      · rw [if_neg h3]
        show decVarint (253 :: (leBytes 8 x ++ r)) = some (x, r)
        simp only [decVarint]
        norm_num
        exact readLE_leBytes 8 x r (lt_of_lt_of_eq h (by norm_num))

lemma decBool_encBool (b : Bool) (r : List Nat) :
    decBool (encBool b ++ r) = some (b, r) := by
  cases b <;> rfl

lemma readN_append (bs r : List Nat) :
    readN bs.length (bs ++ r) = some (bs, r) := by
  induction bs with
  | nil => rfl
  | cons b t ih =>
      show (readN t.length (t ++ r)).map (fun vr => (b :: vr.1, vr.2))
        = some (b :: t, r)
      rw [ih]
      rfl

lemma decBytes_encBytes (s : RStr) (r : List Nat) (h : s.length < 2 ^ 64) :
    decBytes (encBytes s ++ r) = some (s, r) := by
  unfold encBytes decBytes
  rw [List.append_assoc, decVarint_encVarint _ _ h]
  exact readN_append s r

/-- Bound predicate: a byte string whose length fits the usize encoding. -/
def lenOk (s : RStr) : Bool := s.length < 2 ^ 64

/-- Bound predicate for an optional string field. -/
def optStrOk : Option RStr → Bool
  | none => true
  | some s => lenOk s

/-- Bound predicate for an optional u32 field. -/
def optU32Ok : Option Nat → Bool
  | none => true
  | some v => v < 2 ^ 32

lemma decOpt_encOpt_bytes (o : Option RStr) (r : List Nat)
    (h : optStrOk o = true) :
    decOpt decBytes (encOpt encBytes o ++ r) = some (o, r) := by
  cases o with
  | none => rfl
  | some s =>
      show decOpt decBytes (1 :: (encBytes s ++ r)) = some (some s, r)
      simp only [decOpt]
      norm_num
      rw [decBytes_encBytes s r (by
        simpa [optStrOk, lenOk] using h)]

lemma decOpt_encOpt_varint (o : Option Nat) (r : List Nat)
    (h : optU32Ok o = true) :
    decOpt decVarint (encOpt encVarint o ++ r) = some (o, r) := by
  cases o with
  | none => rfl
  | some v =>
      show decOpt decVarint (1 :: (encVarint v ++ r)) = some (some v, r)
      simp only [decOpt]
      norm_num
      have hv : v < 2 ^ 32 := by simpa [optU32Ok] using h
      rw [decVarint_encVarint v r (lt_trans hv (by norm_num))]

lemma decOpt_encOpt_bool (o : Option Bool) (r : List Nat) :
    decOpt decBool (encOpt encBool o ++ r) = some (o, r) := by
  cases o with
  | none => rfl
  | some b => cases b <;> rfl

lemma decCount_encList {α : Type} (decA : List Nat → Option (α × List Nat))
    (encA : α → List Nat) :
    ∀ (xs : List α) (r : List Nat),
      (∀ a ∈ xs, ∀ r2, decA (encA a ++ r2) = some (a, r2)) →
      decCount decA xs.length (xs.flatMap encA ++ r) = some (xs, r) := by
  intro xs
  induction xs with
  | nil =>
      intro r _
      rfl
  | cons a t ih =>
      intro r h
      show (decA ((encA a ++ t.flatMap encA) ++ r)).bind _ = _
      rw [List.append_assoc, h a (List.mem_cons_self a t)]
      show (decCount decA t.length (t.flatMap encA ++ r)).map _ = _
      rw [ih r (fun b hb r2 => h b (List.mem_cons_of_mem _ hb) r2)]
      rfl

lemma decList_encList {α : Type} (decA : List Nat → Option (α × List Nat))
    (encA : α → List Nat) (xs : List α) (r : List Nat)
    (hlen : xs.length < 2 ^ 64)
    (h : ∀ a ∈ xs, ∀ r2, decA (encA a ++ r2) = some (a, r2)) :
    decList decA (encList encA xs ++ r) = some (xs, r) := by
  unfold encList decList
  rw [List.append_assoc, decVarint_encVarint _ _ hlen]
  exact decCount_encList decA encA xs r h

/-- Type-invariant of a CountryLocation as a Rust value: u32 id, string
lengths within usize. -/
def CountryLocation.wf (c : CountryLocation) : Bool :=
  decide (c.geoname_id < 2 ^ 32) && lenOk c.locale_code
    && lenOk c.continent_code && lenOk c.continent_name
    && optStrOk c.country_iso_code && optStrOk c.country_name

/-- Type-invariant of an IpBlock as a Rust value. -/
def IpBlock.wf (b : IpBlock) : Bool :=
  lenOk b.network && optU32Ok b.geoname_id
    && optU32Ok b.registered_country_geoname_id
    && optU32Ok b.represented_country_geoname_id

/-- Type-invariant of a GeoData as a Rust value: u32 keys, lengths within
usize. -/
def GeoData.wf (d : GeoData) : Bool :=
  decide (d.ip_blocks.length < 2 ^ 64) && d.ip_blocks.all IpBlock.wf
    && decide (d.country_locations.length < 2 ^ 64)
    && d.country_locations.all
        (fun p => decide (p.1 < 2 ^ 32) && p.2.wf)

lemma decCountryLocation_enc (c : CountryLocation) (r : List Nat)
    (h : c.wf = true) :
    decCountryLocation (encCountryLocation c ++ r) = some (c, r) := by
  obtain ⟨gid, lc, cc, cn, iso, country, eu⟩ := c
  simp only [CountryLocation.wf, Bool.and_eq_true, decide_eq_true_eq,
    lenOk] at h
  obtain ⟨⟨⟨⟨⟨h1, h2⟩, h3⟩, h4⟩, h5⟩, h6⟩ := h
  have h1a : gid < 2 ^ 64 := lt_trans h1 (by norm_num)
  simp only [encCountryLocation, decCountryLocation, List.append_assoc]
  rw [decVarint_encVarint _ _ h1a]
  simp only [Option.some_bind]
  rw [decBytes_encBytes _ _ h2]
  simp only [Option.some_bind]
  rw [decBytes_encBytes _ _ h3]
  simp only [Option.some_bind]
  rw [decBytes_encBytes _ _ h4]
  simp only [Option.some_bind]
  rw [decOpt_encOpt_bytes _ _ h5]
  simp only [Option.some_bind]
  rw [decOpt_encOpt_bytes _ _ h6]
  simp only [Option.some_bind]
  rw [decBool_encBool]
  rfl

lemma decIpBlock_enc (b : IpBlock) (r : List Nat) (h : b.wf = true) :
    decIpBlock (encIpBlock b ++ r) = some (b, r) := by
  obtain ⟨nw, g, reg, rep, anon, sat, anycast⟩ := b
  simp only [IpBlock.wf, Bool.and_eq_true, decide_eq_true_eq, lenOk] at h
  obtain ⟨⟨⟨h1, h2⟩, h3⟩, h4⟩ := h
  simp only [encIpBlock, decIpBlock, List.append_assoc]
  rw [decBytes_encBytes _ _ h1]
  simp only [Option.some_bind]
  rw [decOpt_encOpt_varint _ _ h2]
  simp only [Option.some_bind]
  rw [decOpt_encOpt_varint _ _ h3]
  simp only [Option.some_bind]
  rw [decOpt_encOpt_varint _ _ h4]
  simp only [Option.some_bind]
  rw [decBool_encBool]
  simp only [Option.some_bind]
  rw [decBool_encBool]
  simp only [Option.some_bind]
  rw [decOpt_encOpt_bool]
  rfl

lemma decLocPair_enc (p : Nat × CountryLocation) (r : List Nat)
    (hk : p.1 < 2 ^ 32) (hc : p.2.wf = true) :
    decLocPair (encLocPair p ++ r) = some (p, r) := by
  obtain ⟨k, c⟩ := p
  simp only [encLocPair, decLocPair, List.append_assoc]
  rw [decVarint_encVarint _ _ (lt_trans hk (by norm_num))]
  simp only [Option.some_bind]
  rw [decCountryLocation_enc _ _ hc]
  rfl

lemma decGeoData_enc (d : GeoData) (h : d.wf = true) :
    decGeoData (encGeoData d) = some d := by
  obtain ⟨blocks, locs⟩ := d
  simp only [GeoData.wf, Bool.and_eq_true, decide_eq_true_eq] at h
  obtain ⟨⟨⟨hlen1, hall1⟩, hlen2⟩, hall2⟩ := h
  have hb : ∀ b ∈ blocks, ∀ r2, decIpBlock (encIpBlock b ++ r2)
      = some (b, r2) := by
    intro b hbm r2
    exact decIpBlock_enc b r2 (List.all_eq_true.mp hall1 b hbm)
  have hp : ∀ p ∈ locs, ∀ r2, decLocPair (encLocPair p ++ r2)
      = some (p, r2) := by
    intro p hpm r2
    have := List.all_eq_true.mp hall2 p hpm
    simp only [Bool.and_eq_true, decide_eq_true_eq] at this
    exact decLocPair_enc p r2 this.1 this.2
  unfold encGeoData decGeoData
  rw [decList_encList decIpBlock encIpBlock blocks _ hlen1 hb]
  simp only [Option.some_bind]
  have h2 := decList_encList decLocPair encLocPair locs [] hlen2 hp
  rw [List.append_nil] at h2
  rw [h2]
  rfl

/-- C4: compacted cache codec round-trip: for every GeoData value (under
the Rust type invariants) and every path and prior file-store contents,
saving through any lossless stream compressor and loading back yields the
identical GeoData: the same ordered block sequence and the same
geoname_id → CountryLocation mapping. -/
theorem c4_codec_roundtrip (compress decompress : List Nat → List Nat)
    (hinv : ∀ bs, decompress (compress bs) = bs) (d : GeoData) (p : String)
    (fs : FileStore) (hwf : d.wf = true) :
    load_compressed_data decompress p (save_compressed_data compress d p fs)
      = .ok d := by
  unfold save_compressed_data load_compressed_data
  rw [lookupA_insertA_self]
  simp only [hinv, decGeoData_enc d hwf]

/-- A concrete non-empty GeoData for the C4 witness. -/
def c4WitnessData : GeoData :=
  ⟨[⟨strBytes "10.0.0.0/8", some 2, none, none, false, false, none⟩],
   [(2, usLocation)]⟩

/-- Witness for C4: the round trip at a concrete non-empty GeoData through
the identity compressor. -/
theorem c4_codec_roundtrip_witness :
    load_compressed_data id "geo_ip_data.bin.gz"
        (save_compressed_data id c4WitnessData "geo_ip_data.bin.gz" [])
      = .ok c4WitnessData :=
  c4_codec_roundtrip id id (fun _ => rfl) c4WitnessData "geo_ip_data.bin.gz"
    [] (by decide)
